import Mathlib

/-!
Verification of the Clean Code Analyzer repository.

The repository ships the presentation layer (the React `FileUpload`
component in `src/frontend/src/App.jsx`); the scoring engine (the FastAPI
backend that `App.jsx` calls at `/analyze-code`) is referenced by the
README but its sources are not in the repository.  The engine definitions
below are therefore modelled from the specification, while the
presentation-layer definitions are translated directly from `App.jsx`.
-/

namespace CCA

/-- Modelled from the spec: declared maximum of the Naming category. -/
def namingMax : Nat := 10

/-- Modelled from the spec: declared maximum of the Modularity category. -/
def modularityMax : Nat := 20

/-- Modelled from the spec: declared maximum of the Comments category. -/
def commentsMax : Nat := 20

/-- Modelled from the spec: declared maximum of the Formatting category. -/
def formattingMax : Nat := 15

/-- Modelled from the spec: declared maximum of the Reusability category. -/
def reusabilityMax : Nat := 15

/-- Modelled from the spec: declared maximum of the Best-Practices category. -/
def bestPracticesMax : Nat := 20

/-- Modelled from the spec: the two supported grammars. -/
inductive Language
  | JS_JSX
  | PYTHON
deriving DecidableEq

/-- Modelled from the spec: the single engine failure kind surfaced to callers. -/
inductive AnalyzeError
  | unsupportedLanguage
deriving DecidableEq

/-- Modelled from the spec: a source file tagged with its detected language. -/
structure SourceFile where
  filename : String
  content : String
  language : Language
deriving DecidableEq

/-- Modelled from the spec: declaration kind of a discovered identifier. -/
inductive DeclKind
  | variableDecl
  | functionDecl
  | classDecl
deriving DecidableEq

/-- Modelled from the spec: the six clean-code categories. -/
inductive Category
  | naming
  | modularity
  | comments
  | formatting
  | reusability
  | bestPractices
deriving DecidableEq

/-- Modelled from the spec: one scorer's output. -/
structure CategoryResult where
  category : Category
  rawScore : Nat
  recommendations : List String
deriving DecidableEq

/-- The per-category breakdown object crossing the engine boundary
(field names as in the JSON consumed by `App.jsx`). -/
structure Breakdown where
  naming : Nat
  modularity : Nat
  comments : Nat
  formatting : Nat
  reusability : Nat
  best_practices : Nat
deriving DecidableEq

/-- The result contract crossing the engine boundary
(field names as in the JSON consumed by `App.jsx`). -/
structure AnalysisResult where
  overall_score : Nat
  breakdown : Breakdown
  recommendations : List String
deriving DecidableEq

/-- Modelled from the spec: a discovered function/def span. -/
structure FunctionSpan where
  ident : List Char
  paramCount : Nat
  lineCount : Nat
  normBody : List (List Char)
deriving DecidableEq

/-- Modelled from the spec: per-line formatting facts. -/
structure LineFact where
  len : Nat
  trailing : Bool
  leadWS : Nat
  leadTab : Bool
  blank : Bool
  braceOpenN : Nat
  braceCloseN : Nat
deriving DecidableEq

/-- Modelled from the spec: the structural facts shared by the six scorers. -/
structure StructuralFacts where
  identifiers : List (List Char × DeclKind)
  functions : List FunctionSpan
  commentFlags : List Bool
  declLines : List Nat
  lineFacts : List LineFact
deriving DecidableEq

/-- Whitespace characters other than the newline separator. -/
def isWSChar (c : Char) : Bool := c == (' ') || c == ('\t') || c == ('\r')

/-- Characters allowed inside an identifier token. -/
def isIdentChar (c : Char) : Bool := c.isAlphanum || c == ('_')

/-- Splits a character stream at newline characters. -/
def splitLinesAux (cur : List Char) : List Char → List (List Char)
  | [] => [cur.reverse]
  | c :: cs =>
    if c == ('\n') then cur.reverse :: splitLinesAux [] cs
    else splitLinesAux (c :: cur) cs

/-- Lines of a file; the empty file has no lines. -/
def splitLines (content : String) : List (List Char) :=
  if content.isEmpty then [] else splitLinesAux [] content.data

/-- Drops leading whitespace. -/
def trimL (l : List Char) : List Char := l.dropWhile isWSChar

/-- Drops trailing whitespace. -/
def trimR (l : List Char) : List Char := (l.reverse.dropWhile isWSChar).reverse

/-- Drops both leading and trailing whitespace. -/
def trimBoth (l : List Char) : List Char := trimR (trimL l)

/-- Whether the first list is an initial segment of the second. -/
def startsWithL : List Char → List Char → Bool
  | [], _ => true
  | _ :: _, [] => false
  | k :: ks, c :: cs => k == c && startsWithL ks cs

/-- Whether the first list occurs as a contiguous segment of the second. -/
def hasSubL (ks : List Char) : List Char → Bool
  | [] => startsWithL ks []
  | c :: cs => startsWithL ks (c :: cs) || hasSubL ks cs

/-- Number of positions at which the first list occurs in the second. -/
def countSubL (ks : List Char) : List Char → Nat
  | [] => 0
  | c :: cs => (if startsWithL ks (c :: cs) then 1 else 0) + countSubL ks cs

/-- Number of occurrences of a character. -/
def countCh (a : Char) (l : List Char) : Nat :=
  (l.filter (fun c => c == a)).length

/-- The opening curly brace character. -/
def braceOpenCh : Char := Char.ofNat 123

/-- The closing curly brace character. -/
def braceCloseCh : Char := Char.ofNat 125

/-- The characters after the last dot of a filename, `none` when the
filename has no dot at all. -/
def extOfAux (cur : Option (List Char)) : List Char → Option (List Char)
  | [] => cur
  | c :: cs =>
    if c == ('.') then extOfAux (some []) cs
    else
      match cur with
      | none => extOfAux none cs
      | some e => extOfAux (some (e ++ [c])) cs

/-- Extension of a filename (text after the last dot), if any. -/
def extensionOf (filename : String) : Option (List Char) :=
  extOfAux none filename.data

/-- The characters of the accepted python extension. -/
def pyExt : List Char := ['p', 'y']

/-- The characters of the accepted javascript extension. -/
def jsExt : List Char := ['j', 's']

/-- The characters of the accepted jsx extension. -/
def jsxExt : List Char := ['j', 's', 'x']

/-- Modelled from the spec: the Language Detector of the absent backend.
Maps `.py` to PYTHON and `.js`/`.jsx` to JS_JSX; any other extension, or a
missing extension, fails with UnsupportedLanguage. -/
def detect (filename : String) : Except AnalyzeError Language :=
  if extensionOf filename = some pyExt then Except.ok Language.PYTHON
  else if extensionOf filename = some jsExt ∨ extensionOf filename = some jsxExt then
    Except.ok Language.JS_JSX
  else Except.error AnalyzeError.unsupportedLanguage

/-- Whether a filename carries one of the accepted extensions. -/
def acceptedExt (filename : String) : Bool :=
  decide (extensionOf filename = some pyExt)
    || decide (extensionOf filename = some jsExt)
    || decide (extensionOf filename = some jsxExt)

/-- Formatting facts for one raw line. -/
def lineFactOf (l : List Char) : LineFact :=
  let lead := l.takeWhile isWSChar
  { len := l.length
  , trailing := trimR l != l
  , leadWS := lead.length
  , leadTab := lead.contains ('\t')
  , blank := (trimBoth l).isEmpty
  , braceOpenN := countCh braceOpenCh l
  , braceCloseN := countCh braceCloseCh l }

/-- Characters of the python `def ` declaration keyword. -/
def kwDef : List Char := ['d', 'e', 'f', ' ']

/-- Characters of the `class ` declaration keyword. -/
def kwClass : List Char := ['c', 'l', 'a', 's', 's', ' ']

/-- Characters of the javascript `function ` declaration keyword. -/
def kwFunction : List Char := ['f', 'u', 'n', 'c', 't', 'i', 'o', 'n', ' ']

/-- Characters of the javascript `const ` declaration keyword. -/
def kwConst : List Char := ['c', 'o', 'n', 's', 't', ' ']

/-- Characters of the javascript `let ` declaration keyword. -/
def kwLet : List Char := ['l', 'e', 't', ' ']

/-- Characters of the javascript `var ` declaration keyword. -/
def kwVar : List Char := ['v', 'a', 'r', ' ']

/-- Characters of the javascript arrow token. -/
def kwArrow : List Char := ['=', '>']

/-- The identifier token directly after a declaration keyword. -/
def identAfter (kw : List Char) (t : List Char) : List Char :=
  (t.drop kw.length).takeWhile isIdentChar

/-- Parameter count of a declaration line: comma-separated tokens inside
the first parenthesis pair, 0 when the list is empty. -/
def paramCountOf (l : List Char) : Nat :=
  let inside := ((l.dropWhile (fun c => c != ('('))).drop 1).takeWhile (fun c => c != (')'))
  if (trimBoth inside).isEmpty then 0 else countCh (',') inside + 1

/-- Modelled from the spec: pattern-based declaration recognition for
PYTHON lines of the absent backend extractor (`def` / `class` keywords and
top-level assignments). -/
def pyDeclOf (l : List Char) : Option (List Char × DeclKind) :=
  let t := trimL l
  if startsWithL kwDef t then some (identAfter kwDef t, DeclKind.functionDecl)
  else if startsWithL kwClass t then some (identAfter kwClass t, DeclKind.classDecl)
  else
    let n := t.takeWhile isIdentChar
    let after := trimL (t.drop n.length)
    if (l.takeWhile isWSChar).isEmpty && !n.isEmpty && startsWithL ['='] after
        && !(startsWithL ['=', '='] after) then
      some (n, DeclKind.variableDecl)
    else none

/-- Modelled from the spec: pattern-based declaration recognition for
JS_JSX lines of the absent backend extractor (`function` / `class`
keywords and `const`/`let`/`var` assignments, arrow functions counting as
function declarations). -/
def jsDeclOf (l : List Char) : Option (List Char × DeclKind) :=
  let t := trimL l
  if startsWithL kwFunction t then some (identAfter kwFunction t, DeclKind.functionDecl)
  else if startsWithL kwClass t then some (identAfter kwClass t, DeclKind.classDecl)
  else if startsWithL kwConst t || startsWithL kwLet t || startsWithL kwVar t then
    let afterKw :=
      if startsWithL kwConst t then t.drop kwConst.length
      else if startsWithL kwLet t then t.drop kwLet.length
      else t.drop kwVar.length
    let n := afterKw.takeWhile isIdentChar
    if hasSubL kwArrow t then some (n, DeclKind.functionDecl)
    else some (n, DeclKind.variableDecl)
  else none

/-- Declaration recognition dispatched on the language. -/
def declOf (lang : Language) (l : List Char) : Option (List Char × DeclKind) :=
  match lang with
  | Language.PYTHON => pyDeclOf l
  | Language.JS_JSX => jsDeclOf l

/-- All declarations of a file together with their line indices. -/
def declsOf (lang : Language) (lines : List (List Char)) :
    List (Nat × List Char × DeclKind) :=
  lines.enum.filterMap (fun p =>
    match declOf lang p.2 with
    | some (n, k) => some (p.1, n, k)
    | none => none)

/-- Modelled from the spec: PYTHON function-span body — the run of
subsequent lines that are blank or indented deeper than the declaration. -/
def pyBodyTail (w : Nat) : List (List Char) → List (List Char)
  | [] => []
  | l :: ls =>
    if (trimBoth l).isEmpty || decide (w < (l.takeWhile isWSChar).length) then
      l :: pyBodyTail w ls
    else []

/-- Modelled from the spec: JS_JSX function span — lines until the brace
depth returns to the declaration level. -/
def jsSpanTail (depth : Int) : List (List Char) → List (List Char)
  | [] => []
  | l :: ls =>
    let d := depth + (countCh braceOpenCh l : Int) - (countCh braceCloseCh l : Int)
    if d ≤ 0 then [l] else l :: jsSpanTail d ls

/-- The lines of a function span, starting at the declaration line. -/
def spanLinesOf (lang : Language) (l : List Char) (rest : List (List Char)) :
    List (List Char) :=
  match lang with
  | Language.PYTHON => l :: pyBodyTail ((l.takeWhile isWSChar).length) rest
  | Language.JS_JSX => jsSpanTail 0 (l :: rest)

/-- Function spans of all function declarations of a file. -/
def functionsOf (lang : Language) (lines : List (List Char)) : List FunctionSpan :=
  (declsOf lang lines).filterMap (fun d =>
    if d.2.2 = DeclKind.functionDecl then
      let declLine := lines.getD d.1 []
      let body := spanLinesOf lang declLine (lines.drop (d.1 + 1))
      some { ident := d.2.1
           , paramCount := paramCountOf declLine
           , lineCount := body.length
           , normBody := body.map trimBoth }
    else none)

/-- Characters of a python comment marker. -/
def hashMark : List Char := ['#']

/-- Characters of a python triple-quote docstring delimiter. -/
def tripleQ : List Char := ['"', '"', '"']

/-- Characters of a javascript line-comment marker. -/
def slashSlash : List Char := ['/', '/']

/-- Characters of a javascript block-comment opener. -/
def blockOpenCm : List Char := ['/', '*']

/-- Characters of a javascript block-comment closer. -/
def blockCloseCm : List Char := ['*', '/']

/-- Characters of a JSX-adjacent block-comment opener. -/
def jsxOpenCm : List Char := [braceOpenCh, '/', '*']

/-- Modelled from the spec: per-line comment classification for PYTHON
(`#` lines and triple-quoted docstring blocks; the boolean tracks being
inside an unclosed triple-quoted block). -/
def pyCommentFlags (inDoc : Bool) : List (List Char) → List Bool
  | [] => []
  | l :: ls =>
    let t := trimBoth l
    if inDoc then true :: pyCommentFlags (!(hasSubL tripleQ t)) ls
    else if startsWithL hashMark t then true :: pyCommentFlags false ls
    else if startsWithL tripleQ t then
      true :: pyCommentFlags (decide (countSubL tripleQ t < 2)) ls
    else false :: pyCommentFlags false ls

/-- Modelled from the spec: per-line comment classification for JS_JSX
(`//` lines, `/* */` blocks and JSX-adjacent block comments; the boolean
tracks being inside an unclosed block comment). -/
def jsCommentFlags (inBlock : Bool) : List (List Char) → List Bool
  | [] => []
  | l :: ls =>
    let t := trimBoth l
    if inBlock then true :: jsCommentFlags (!(hasSubL blockCloseCm t)) ls
    else if startsWithL slashSlash t then true :: jsCommentFlags false ls
    else if startsWithL blockOpenCm t || startsWithL jsxOpenCm t then
      true :: jsCommentFlags (!(hasSubL blockCloseCm t)) ls
    else false :: jsCommentFlags (hasSubL blockOpenCm t && !(hasSubL blockCloseCm t)) ls

/-- Comment classification dispatched on the language. -/
def commentFlagsOf (lang : Language) (lines : List (List Char)) : List Bool :=
  match lang with
  | Language.PYTHON => pyCommentFlags false lines
  | Language.JS_JSX => jsCommentFlags false lines

/-- Modelled from the spec: the Structural Extractor of the absent
backend — a total, best-effort fact gatherer over independent line scans. -/
def extract (sf : SourceFile) : StructuralFacts :=
  let lines := splitLines sf.content
  let decls := declsOf sf.language lines
  { identifiers := decls.map (fun d => (d.2.1, d.2.2))
  , functions := functionsOf sf.language lines
  , commentFlags := commentFlagsOf sf.language lines
  , declLines := decls.map (fun d => d.1)
  , lineFacts := lines.map lineFactOf }

/-- Recommendation emitted for too-short identifier names. -/
def namingShortRec : String := "Use descriptive identifier names of at least 3 characters"

/-- Recommendation emitted for identifiers off the idiomatic case convention. -/
def namingCaseRec : String := "Follow the idiomatic case convention of the language"

/-- Recommendation emitted for single-letter function or class names. -/
def namingSingleRec : String := "Avoid single-letter function and class names"

/-- Recommendation emitted for over-long functions. -/
def modularityLongRec : String := "Break long functions into smaller ones"

/-- Recommendation emitted for functions with too many parameters. -/
def modularityParamsRec : String := "Reduce the number of function parameters"

/-- Recommendation emitted for deeply nested code. -/
def modularityNestRec : String := "Reduce nesting depth by extracting helpers"

/-- Recommendation emitted for a low comment ratio. -/
def commentRatioRec : String := "Add comments and docstrings to document the code"

/-- Recommendation emitted for undocumented declarations. -/
def commentDeclRec : String := "Document public functions and classes"

/-- Recommendation emitted for over-long lines. -/
def formattingLongRec : String := "Keep lines at 100 characters or fewer"

/-- Recommendation emitted for trailing whitespace. -/
def formattingTrailRec : String := "Remove trailing whitespace"

/-- Recommendation emitted for mixed indentation characters. -/
def formattingIndentRec : String := "Indent consistently with a single indentation style"

/-- Recommendation emitted for long blank-line runs. -/
def formattingBlankRec : String := "Avoid more than 2 consecutive blank lines"

/-- Recommendation emitted for duplicated function bodies. -/
def reuseDupRec : String := "Extract duplicated function bodies into shared helpers"

/-- Recommendation emitted for repeated magic literals. -/
def reuseMagicRec : String := "Name magic literals that are repeated across the file"

/-- Recommendation emitted for javascript loose equality. -/
def bpLooseEqRec : String := "Use strict equality instead of loose equality"

/-- Recommendation emitted for list rendering without a key prop. -/
def bpKeyPropRec : String := "Provide a key prop when rendering lists"

/-- Recommendation emitted for python bare except clauses. -/
def bpBareExceptRec : String := "Catch specific exception types instead of a bare except"

/-- Recommendation emitted for python wildcard imports. -/
def bpWildcardRec : String := "Import names explicitly instead of wildcard imports"

/-- Recommendation emitted for python mutable default arguments. -/
def bpMutableDefaultRec : String := "Avoid mutable default argument values"

/-- Conventional loop-counter names exempt from the short-name check. -/
def loopCounters : List (List Char) := [['i'], ['j'], ['k'], ['_']]

/-- An identifier shorter than 3 characters, loop counters excluded. -/
def badShortName (p : List Char × DeclKind) : Bool :=
  decide (p.1.length < 3) && !(loopCounters.contains p.1)

/-- Whether a name contains an uppercase character. -/
def hasUpper (n : List Char) : Bool := n.any (fun c => c.isUpper)

/-- Whether a name contains an underscore. -/
def hasUnderscore (n : List Char) : Bool := n.contains ('_')

/-- Modelled from the spec: an identifier off the idiomatic case
convention (snake_case for PYTHON, camelCase for JS_JSX; class names are
exempt). -/
def badCaseName (lang : Language) (p : List Char × DeclKind) : Bool :=
  match lang, p.2 with
  | _, DeclKind.classDecl => false
  | Language.PYTHON, _ => hasUpper p.1
  | Language.JS_JSX, _ => hasUnderscore p.1

/-- A function or class declared with a single-letter name. -/
def singleLetterTypeName (p : List Char × DeclKind) : Bool :=
  (decide (p.2 = DeclKind.functionDecl) || decide (p.2 = DeclKind.classDecl))
    && decide (p.1.length = 1)

/-- Modelled from the spec: the Naming scorer of the absent backend.
Starts at the category maximum and deducts a fixed penalty per detected
violation type (chosen penalties 4, 3 and 3), flooring at 0. -/
def scoreNaming (facts : StructuralFacts) (sf : SourceFile) : CategoryResult :=
  let v1 := facts.identifiers.any badShortName
  let v2 := facts.identifiers.any (badCaseName sf.language)
  let v3 := facts.identifiers.any singleLetterTypeName
  let penalty := (if v1 then 4 else 0) + (if v2 then 3 else 0) + (if v3 then 3 else 0)
  { category := Category.naming
  , rawScore := namingMax - penalty
  , recommendations :=
      (if v1 then [namingShortRec] else []) ++ (if v2 then [namingCaseRec] else [])
        ++ (if v3 then [namingSingleRec] else []) }

/-- Maximum python indentation depth of a file, one level per 4 columns. -/
def pyMaxIndentDepth (lfs : List LineFact) : Nat :=
  (lfs.map (fun f => f.leadWS / 4)).foldr max 0

/-- Running maximum of the cumulative brace depth of a file. -/
def jsMaxDepthAux (cur mx : Int) : List LineFact → Int
  | [] => mx
  | f :: fs =>
    let c := cur + (f.braceOpenN : Int) - (f.braceCloseN : Int)
    jsMaxDepthAux c (max mx c) fs

/-- Nesting depth of a file inferred from indentation or brace depth. -/
def nestingDepthOf (lang : Language) (lfs : List LineFact) : Nat :=
  match lang with
  | Language.PYTHON => pyMaxIndentDepth lfs
  | Language.JS_JSX => (jsMaxDepthAux 0 0 lfs).toNat

/-- Modelled from the spec: the Modularity scorer of the absent backend
(thresholds 40 lines, 5 parameters, nesting depth 4; chosen penalties
7, 7 and 6), flooring at 0. -/
def scoreModularity (facts : StructuralFacts) (sf : SourceFile) : CategoryResult :=
  let v1 := facts.functions.any (fun fs => decide (40 < fs.lineCount))
  let v2 := facts.functions.any (fun fs => decide (5 < fs.paramCount))
  let v3 := decide (4 < nestingDepthOf sf.language facts.lineFacts)
  let penalty := (if v1 then 7 else 0) + (if v2 then 7 else 0) + (if v3 then 6 else 0)
  { category := Category.modularity
  , rawScore := modularityMax - penalty
  , recommendations :=
      (if v1 then [modularityLongRec] else []) ++ (if v2 then [modularityParamsRec] else [])
        ++ (if v3 then [modularityNestRec] else []) }

/-- Whether a declaration at a line index lacks an immediately preceding
or enclosed comment/docstring line. -/
def undocumentedDecl (flags : List Bool) (i : Nat) : Bool :=
  let pre := decide (0 < i) && flags.getD (i - 1) false
  let enc := flags.getD (i + 1) false
  !(pre || enc)

/-- Modelled from the spec: the Comments scorer of the absent backend.
An empty file scores 0 (a comment ratio of 0/0 counts as no documentation
present); otherwise starts at the maximum and deducts a chosen penalty of
10 for a comment ratio below 10 percent and 10 for undocumented
declarations, flooring at 0. -/
def scoreComments (facts : StructuralFacts) (_sf : SourceFile) : CategoryResult :=
  if facts.lineFacts.length = 0 then
    { category := Category.comments
    , rawScore := 0
    , recommendations := [commentRatioRec] }
  else
    let total := facts.lineFacts.length
    let cCount := (facts.commentFlags.filter (fun b => b)).length
    let v1 := decide (cCount * 10 < total)
    let v2 := facts.declLines.any (undocumentedDecl facts.commentFlags)
    let penalty := (if v1 then 10 else 0) + (if v2 then 10 else 0)
    { category := Category.comments
    , rawScore := commentsMax - penalty
    , recommendations :=
        (if v1 then [commentRatioRec] else []) ++ (if v2 then [commentDeclRec] else []) }

/-- Length of the longest run of consecutive blank lines. -/
def maxBlankRunAux (cur mx : Nat) : List LineFact → Nat
  | [] => mx
  | f :: fs =>
    if f.blank then maxBlankRunAux (cur + 1) (max mx (cur + 1)) fs
    else maxBlankRunAux 0 mx fs

/-- Modelled from the spec: the Formatting scorer of the absent backend
(line-length limit 100, trailing whitespace, mixed tab/space indentation,
more than 2 consecutive blank lines; chosen penalties 4, 4, 4 and 3),
flooring at 0. -/
def scoreFormatting (facts : StructuralFacts) (_sf : SourceFile) : CategoryResult :=
  let v1 := facts.lineFacts.any (fun f => decide (100 < f.len))
  let v2 := facts.lineFacts.any (fun f => f.trailing)
  let v3 := (facts.lineFacts.any (fun f => f.leadTab))
      && (facts.lineFacts.any (fun f => decide (0 < f.leadWS) && !f.leadTab))
  let v4 := decide (2 < maxBlankRunAux 0 0 facts.lineFacts)
  let penalty := (if v1 then 4 else 0) + (if v2 then 4 else 0)
      + (if v3 then 4 else 0) + (if v4 then 3 else 0)
  { category := Category.formatting
  , rawScore := formattingMax - penalty
  , recommendations :=
      (if v1 then [formattingLongRec] else []) ++ (if v2 then [formattingTrailRec] else [])
        ++ (if v3 then [formattingIndentRec] else []) ++ (if v4 then [formattingBlankRec] else []) }

/-- Maximal runs of digits occurring in a character stream. -/
def digitRunsAux (cur : List Char) : List Char → List (List Char)
  | [] => if cur.isEmpty then [] else [cur.reverse]
  | c :: cs =>
    if c.isDigit then digitRunsAux (c :: cur) cs
    else if cur.isEmpty then digitRunsAux [] cs
    else cur.reverse :: digitRunsAux [] cs

/-- Numeric literal tokens of a file, the conventional 0 and 1 excluded. -/
def magicLiterals (content : String) : List (List Char) :=
  (digitRunsAux [] content.data).filter
    (fun r => !(decide (r = ['0']) || decide (r = ['1'])))

/-- Modelled from the spec: the Reusability scorer of the absent backend
(near-identical duplication approximated as equality of whitespace-
normalised multi-line function bodies; a magic literal repeated at 3 or
more sites; chosen penalties 8 and 7), flooring at 0. -/
def scoreReusability (facts : StructuralFacts) (sf : SourceFile) : CategoryResult :=
  let bodies := (facts.functions.filter (fun fs => decide (2 ≤ fs.lineCount))).map
    (fun fs => fs.normBody)
  let lits := magicLiterals sf.content
  let v1 := decide (bodies.dedup.length ≠ bodies.length)
  let v2 := lits.any (fun r => decide (3 ≤ (lits.filter (fun s => s == r)).length))
  let penalty := (if v1 then 8 else 0) + (if v2 then 7 else 0)
  { category := Category.reusability
  , rawScore := reusabilityMax - penalty
  , recommendations :=
      (if v1 then [reuseDupRec] else []) ++ (if v2 then [reuseMagicRec] else []) }

/-- Whether a character stream contains a loose-equality token: an
occurrence of a double equals sign that is part of neither a strict
equality nor a strict inequality token. -/
def hasLooseEq : List Char → Bool
  | '=' :: '=' :: '=' :: rest => hasLooseEq rest
  | '!' :: '=' :: '=' :: rest => hasLooseEq rest
  | '=' :: '=' :: _ => true
  | _ :: rest => hasLooseEq rest
  | [] => false

/-- Characters of a javascript list-rendering call marker. -/
def mapCallKw : List Char := ['.', 'm', 'a', 'p', '(']

/-- Characters of a JSX key prop marker. -/
def keyPropKw : List Char := ['k', 'e', 'y', '=']

/-- Characters of a python bare except clause. -/
def exceptColon : List Char := ['e', 'x', 'c', 'e', 'p', 't', ':']

/-- Characters of a python wildcard import marker. -/
def importStar : List Char := ['i', 'm', 'p', 'o', 'r', 't', ' ', '*']

/-- Characters of a python mutable (empty list) default argument marker. -/
def eqEmptyList : List Char := ['=', '[', ']']

/-- Modelled from the spec: the Best-Practices scorer of the absent
backend. JS_JSX checks loose equality (penalty 10) and list rendering
without a key prop (penalty 10); PYTHON checks bare except (penalty 10),
wildcard imports (penalty 5) and mutable default arguments (penalty 5);
flooring at 0. -/
def scoreBestPractices (_facts : StructuralFacts) (sf : SourceFile) : CategoryResult :=
  match sf.language with
  | Language.JS_JSX =>
    let v1 := hasLooseEq sf.content.data
    let v2 := hasSubL mapCallKw sf.content.data && !(hasSubL keyPropKw sf.content.data)
    let penalty := (if v1 then 10 else 0) + (if v2 then 10 else 0)
    { category := Category.bestPractices
    , rawScore := bestPracticesMax - penalty
    , recommendations :=
        (if v1 then [bpLooseEqRec] else []) ++ (if v2 then [bpKeyPropRec] else []) }
  | Language.PYTHON =>
    let lines := splitLines sf.content
    let v1 := lines.any (fun l => decide (trimBoth l = exceptColon))
    let v2 := hasSubL importStar sf.content.data
    let v3 := lines.any (fun l => startsWithL kwDef (trimL l) && hasSubL eqEmptyList l)
    let penalty := (if v1 then 10 else 0) + (if v2 then 5 else 0) + (if v3 then 5 else 0)
    { category := Category.bestPractices
    , rawScore := bestPracticesMax - penalty
    , recommendations :=
        (if v1 then [bpBareExceptRec] else []) ++ (if v2 then [bpWildcardRec] else [])
          ++ (if v3 then [bpMutableDefaultRec] else []) }

/-- De-duplication keeping the first occurrence of each string. -/
def dedupAux (seen : List String) : List String → List String
  | [] => []
  | s :: rest =>
    if seen.contains s then dedupAux seen rest
    else s :: dedupAux (s :: seen) rest

/-- Modelled from the spec: the Aggregator of the absent backend — sums
the six rawScores with a defensive clamp to 100 and merges the
recommendation lists, de-duplicating while preserving first-seen order. -/
def aggregate (cn cm cc cf cr cb : CategoryResult) : AnalysisResult :=
  let total := cn.rawScore + cm.rawScore + cc.rawScore + cf.rawScore
      + cr.rawScore + cb.rawScore
  { overall_score := min total 100
  , breakdown :=
      { naming := cn.rawScore
      , modularity := cm.rawScore
      , comments := cc.rawScore
      , formatting := cf.rawScore
      , reusability := cr.rawScore
      , best_practices := cb.rawScore }
  , recommendations :=
      dedupAux [] (cn.recommendations ++ cm.recommendations ++ cc.recommendations
        ++ cf.recommendations ++ cr.recommendations ++ cb.recommendations) }

/-- The pipeline run on a file whose language is already detected:
extraction, then the six scorers, then aggregation. -/
def analyzeWith (lang : Language) (filename content : String) : AnalysisResult :=
  let sf : SourceFile := { filename := filename, content := content, language := lang }
  let facts := extract sf
  aggregate (scoreNaming facts sf) (scoreModularity facts sf)
    (scoreComments facts sf) (scoreFormatting facts sf)
    (scoreReusability facts sf) (scoreBestPractices facts sf)

/-- Modelled from the spec: the Engine Facade of the absent backend —
detection, then extraction, then the six scorers, then aggregation. -/
def analyze (filename content : String) : Except AnalyzeError AnalysisResult :=
  match detect filename with
  | Except.error e => Except.error e
  | Except.ok lang => Except.ok (analyzeWith lang filename content)

/-- A file selected in the upload form (frontend/src, FileUpload). -/
structure UploadedFile where
  name : String
deriving DecidableEq

/-- The four useState hooks of the FileUpload component
(frontend/src, FileUpload). -/
structure FileUploadState where
  file : Option UploadedFile
  analysisResult : Option AnalysisResult
  isLoading : Bool
  error : Option String
deriving DecidableEq

/-- The handleFileChange handler of FileUpload: stores the selected file
and clears the previous result and error (frontend/src, FileUpload). -/
def handleFileChange (selected : Option UploadedFile) (s : FileUploadState) :
    FileUploadState :=
  { s with file := selected, analysisResult := none, error := none }

/-- Whether the synchronous part of handleSubmit issues the fetch to the
backend, and with which file. -/
inductive SubmitAction
  | noFetch
  | fetchAnalyze (f : UploadedFile)
deriving DecidableEq

/-- The synchronous prefix of the handleSubmit handler of FileUpload: with
no file selected it sets the error message and returns without a network
request; otherwise it clears the error, sets the loading flag and issues
the fetch (frontend/src, FileUpload). -/
def handleSubmit (s : FileUploadState) : FileUploadState × SubmitAction :=
  match s.file with
  | none => ({ s with error := some ("Please select a file first.") }, SubmitAction.noFetch)
  | some f => ({ s with isLoading := true, error := none }, SubmitAction.fetchAnalyze f)

/-- The getScoreColor helper of FileUpload (frontend/src, FileUpload). -/
def getScoreColor (score : ℚ) : String :=
  if score ≥ 80 then "#4CAF50"
  else if score ≥ 60 then "#FFC107"
  else if score ≥ 40 then "#FF9800"
  else "#F44336"

/-- Width of the naming score bar rendered by FileUpload
(frontend/src, FileUpload). -/
def barWidthNaming (r : AnalysisResult) : ℚ := (r.breakdown.naming : ℚ) * 10

/-- Width of the modularity score bar rendered by FileUpload
(frontend/src, FileUpload). -/
def barWidthModularity (r : AnalysisResult) : ℚ := (r.breakdown.modularity : ℚ) * 5

/-- Width of the comments score bar rendered by FileUpload
(frontend/src, FileUpload). -/
def barWidthComments (r : AnalysisResult) : ℚ := (r.breakdown.comments : ℚ) * 5

/-- Width of the formatting score bar rendered by FileUpload
(frontend/src, FileUpload). -/
def barWidthFormatting (r : AnalysisResult) : ℚ := (r.breakdown.formatting : ℚ) * (100 / 15)

/-- Width of the reusability score bar rendered by FileUpload
(frontend/src, FileUpload). -/
def barWidthReusability (r : AnalysisResult) : ℚ := (r.breakdown.reusability : ℚ) * (100 / 15)

/-- Width of the best-practices score bar rendered by FileUpload
(frontend/src, FileUpload). -/
def barWidthBestPractices (r : AnalysisResult) : ℚ := (r.breakdown.best_practices : ℚ) * 5

/-- The accept attribute of the file input of the upload form
(frontend/src, FileUpload). -/
def acceptAttr : List String := [".js", ".jsx", ".py"]

/-- The AnalysisResult the engine model produces for an empty python file. -/
def resEmptyPy : AnalysisResult :=
  { overall_score := 80
  , breakdown :=
      { naming := 10
      , modularity := 20
      , comments := 0
      , formatting := 15
      , reusability := 15
      , best_practices := 20 }
  , recommendations := [commentRatioRec] }

/-- The initial state of the FileUpload component. -/
def emptyUploadState : FileUploadState :=
  { file := none, analysisResult := none, isLoading := false, error := none }

/-- The Naming scorer never exceeds its category maximum. -/
theorem scoreNaming_le (facts : StructuralFacts) (sf : SourceFile) :
    (scoreNaming facts sf).rawScore ≤ namingMax :=
  Nat.sub_le _ _

/-- The Modularity scorer never exceeds its category maximum. -/
theorem scoreModularity_le (facts : StructuralFacts) (sf : SourceFile) :
    (scoreModularity facts sf).rawScore ≤ modularityMax :=
  Nat.sub_le _ _

/-- The Comments scorer never exceeds its category maximum. -/
theorem scoreComments_le (facts : StructuralFacts) (sf : SourceFile) :
    (scoreComments facts sf).rawScore ≤ commentsMax := by
  unfold scoreComments
  split
  · exact Nat.zero_le _
  · exact Nat.sub_le _ _

/-- The Formatting scorer never exceeds its category maximum. -/
theorem scoreFormatting_le (facts : StructuralFacts) (sf : SourceFile) :
    (scoreFormatting facts sf).rawScore ≤ formattingMax :=
  Nat.sub_le _ _

/-- The Reusability scorer never exceeds its category maximum. -/
theorem scoreReusability_le (facts : StructuralFacts) (sf : SourceFile) :
    (scoreReusability facts sf).rawScore ≤ reusabilityMax :=
  Nat.sub_le _ _

/-- The Best-Practices scorer never exceeds its category maximum. -/
theorem scoreBestPractices_le (facts : StructuralFacts) (sf : SourceFile) :
    (scoreBestPractices facts sf).rawScore ≤ bestPracticesMax := by
  rcases sf with ⟨fn, ct, lang⟩
  cases lang
  · exact Nat.sub_le _ _
  · exact Nat.sub_le _ _

/-- The Aggregator's output: the overall score is the plain sum of the six
breakdown values, lies within 100, and keeps each bounded rawScore. -/
theorem aggregate_spec (cn cm cc cf cr cb : CategoryResult)
    (h1 : cn.rawScore ≤ namingMax) (h2 : cm.rawScore ≤ modularityMax)
    (h3 : cc.rawScore ≤ commentsMax) (h4 : cf.rawScore ≤ formattingMax)
    (h5 : cr.rawScore ≤ reusabilityMax) (h6 : cb.rawScore ≤ bestPracticesMax) :
    (aggregate cn cm cc cf cr cb).overall_score
        = (aggregate cn cm cc cf cr cb).breakdown.naming
          + (aggregate cn cm cc cf cr cb).breakdown.modularity
          + (aggregate cn cm cc cf cr cb).breakdown.comments
          + (aggregate cn cm cc cf cr cb).breakdown.formatting
          + (aggregate cn cm cc cf cr cb).breakdown.reusability
          + (aggregate cn cm cc cf cr cb).breakdown.best_practices
    ∧ (aggregate cn cm cc cf cr cb).overall_score ≤ 100
    ∧ (aggregate cn cm cc cf cr cb).breakdown.naming ≤ namingMax
    ∧ (aggregate cn cm cc cf cr cb).breakdown.modularity ≤ modularityMax
    ∧ (aggregate cn cm cc cf cr cb).breakdown.comments ≤ commentsMax
    ∧ (aggregate cn cm cc cf cr cb).breakdown.formatting ≤ formattingMax
    ∧ (aggregate cn cm cc cf cr cb).breakdown.reusability ≤ reusabilityMax
    ∧ (aggregate cn cm cc cf cr cb).breakdown.best_practices ≤ bestPracticesMax := by
  have b1 : cn.rawScore ≤ 10 := by simpa [namingMax] using h1
  have b2 : cm.rawScore ≤ 20 := by simpa [modularityMax] using h2
  have b3 : cc.rawScore ≤ 20 := by simpa [commentsMax] using h3
  have b4 : cf.rawScore ≤ 15 := by simpa [formattingMax] using h4
  have b5 : cr.rawScore ≤ 15 := by simpa [reusabilityMax] using h5
  have b6 : cb.rawScore ≤ 20 := by simpa [bestPracticesMax] using h6
  have e1 : (aggregate cn cm cc cf cr cb).breakdown.naming = cn.rawScore := rfl
  have e2 : (aggregate cn cm cc cf cr cb).breakdown.modularity = cm.rawScore := rfl
  have e3 : (aggregate cn cm cc cf cr cb).breakdown.comments = cc.rawScore := rfl
  have e4 : (aggregate cn cm cc cf cr cb).breakdown.formatting = cf.rawScore := rfl
  have e5 : (aggregate cn cm cc cf cr cb).breakdown.reusability = cr.rawScore := rfl
  have e6 : (aggregate cn cm cc cf cr cb).breakdown.best_practices = cb.rawScore := rfl
  have hT : cn.rawScore + cm.rawScore + cc.rawScore + cf.rawScore
      + cr.rawScore + cb.rawScore ≤ 100 := by omega
  have eo : (aggregate cn cm cc cf cr cb).overall_score
      = cn.rawScore + cm.rawScore + cc.rawScore + cf.rawScore
        + cr.rawScore + cb.rawScore := by
    show min (cn.rawScore + cm.rawScore + cc.rawScore + cf.rawScore
      + cr.rawScore + cb.rawScore) 100
        = cn.rawScore + cm.rawScore + cc.rawScore + cf.rawScore + cr.rawScore + cb.rawScore
    exact Nat.min_eq_left hT
  rw [e1, e2, e3, e4, e5, e6, eo]
  exact ⟨rfl, hT, h1, h2, h3, h4, h5, h6⟩

/-- A filename without an accepted extension is rejected by the detector. -/
theorem detect_unsupported (f : String) (h : acceptedExt f = false) :
    detect f = Except.error AnalyzeError.unsupportedLanguage := by
  unfold acceptedExt at h
  simp only [Bool.or_eq_false_iff, decide_eq_false_iff_not] at h
  obtain ⟨⟨hp, hj⟩, hx⟩ := h
  unfold detect
  rw [if_neg hp, if_neg (not_or.mpr ⟨hj, hx⟩)]

/-- A filename without an accepted extension makes the whole facade fail
with UnsupportedLanguage. -/
theorem analyze_unsupported (f c : String) (h : acceptedExt f = false) :
    analyze f c = Except.error AnalyzeError.unsupportedLanguage := by
  unfold analyze
  rw [detect_unsupported f h]

/-- C1: for every valid input, analyze returns an AnalysisResult whose
overallScore equals the sum of the six breakdown values and lies within
100 (nonnegativity holds by the natural-number codomain), and each
breakdown value is at most its category's declared maximum. -/
theorem C1_result_bounds (f c : String) (r : AnalysisResult)
    (h : analyze f c = Except.ok r) :
    r.overall_score = r.breakdown.naming + r.breakdown.modularity + r.breakdown.comments
        + r.breakdown.formatting + r.breakdown.reusability + r.breakdown.best_practices
    ∧ r.overall_score ≤ 100
    ∧ r.breakdown.naming ≤ namingMax
    ∧ r.breakdown.modularity ≤ modularityMax
    ∧ r.breakdown.comments ≤ commentsMax
    ∧ r.breakdown.formatting ≤ formattingMax
    ∧ r.breakdown.reusability ≤ reusabilityMax
    ∧ r.breakdown.best_practices ≤ bestPracticesMax := by
  unfold analyze at h
  cases hd : detect f with
  | error e =>
    rw [hd] at h
    exact Except.noConfusion h
  | ok lang =>
    rw [hd] at h
    have h2 : analyzeWith lang f c = r := Except.ok.inj h
    subst h2
    exact aggregate_spec _ _ _ _ _ _ (scoreNaming_le _ _) (scoreModularity_le _ _)
      (scoreComments_le _ _) (scoreFormatting_le _ _) (scoreReusability_le _ _)
      (scoreBestPractices_le _ _)

/-- Witness for C1 at the concrete input of an empty python file. -/
theorem C1_result_bounds_witness :
    analyze ("a.py") ("") = Except.ok resEmptyPy
    ∧ (resEmptyPy.overall_score
          = resEmptyPy.breakdown.naming + resEmptyPy.breakdown.modularity
            + resEmptyPy.breakdown.comments + resEmptyPy.breakdown.formatting
            + resEmptyPy.breakdown.reusability + resEmptyPy.breakdown.best_practices
      ∧ resEmptyPy.overall_score ≤ 100
      ∧ resEmptyPy.breakdown.naming ≤ namingMax
      ∧ resEmptyPy.breakdown.modularity ≤ modularityMax
      ∧ resEmptyPy.breakdown.comments ≤ commentsMax
      ∧ resEmptyPy.breakdown.formatting ≤ formattingMax
      ∧ resEmptyPy.breakdown.reusability ≤ reusabilityMax
      ∧ resEmptyPy.breakdown.best_practices ≤ bestPracticesMax) :=
  ⟨by rfl, C1_result_bounds ("a.py") ("") resEmptyPy (by rfl)⟩

/-- C2: the presentation layer re-scales each breakdown value to a 0 to
100 bar by multiplying it with 100 divided by the category's maximum
(naming by 10, modularity by 5, comments by 5, formatting by 100/15,
reusability by 100/15, best practices by 5); for the raw bounded values
the engine emits, every rendered bar lies in the 0 to 100 range. -/
theorem C2_rescaling (r : AnalysisResult)
    (hn : r.breakdown.naming ≤ namingMax) (hm : r.breakdown.modularity ≤ modularityMax)
    (hc : r.breakdown.comments ≤ commentsMax) (hf : r.breakdown.formatting ≤ formattingMax)
    (hr : r.breakdown.reusability ≤ reusabilityMax)
    (hb : r.breakdown.best_practices ≤ bestPracticesMax) :
    barWidthNaming r = (r.breakdown.naming : ℚ) * 10
    ∧ barWidthModularity r = (r.breakdown.modularity : ℚ) * 5
    ∧ barWidthComments r = (r.breakdown.comments : ℚ) * 5
    ∧ barWidthFormatting r = (r.breakdown.formatting : ℚ) * (100 / 15)
    ∧ barWidthReusability r = (r.breakdown.reusability : ℚ) * (100 / 15)
    ∧ barWidthBestPractices r = (r.breakdown.best_practices : ℚ) * 5
    ∧ (0 ≤ barWidthNaming r ∧ barWidthNaming r ≤ 100)
    ∧ (0 ≤ barWidthModularity r ∧ barWidthModularity r ≤ 100)
    ∧ (0 ≤ barWidthComments r ∧ barWidthComments r ≤ 100)
    ∧ (0 ≤ barWidthFormatting r ∧ barWidthFormatting r ≤ 100)
    ∧ (0 ≤ barWidthReusability r ∧ barWidthReusability r ≤ 100)
    ∧ (0 ≤ barWidthBestPractices r ∧ barWidthBestPractices r ≤ 100) := by
  have qn : (r.breakdown.naming : ℚ) ≤ 10 := by
    have := hn; simp only [namingMax] at this; exact_mod_cast this
  have qm : (r.breakdown.modularity : ℚ) ≤ 20 := by
    have := hm; simp only [modularityMax] at this; exact_mod_cast this
  have qc : (r.breakdown.comments : ℚ) ≤ 20 := by
    have := hc; simp only [commentsMax] at this; exact_mod_cast this
  have qf : (r.breakdown.formatting : ℚ) ≤ 15 := by
    have := hf; simp only [formattingMax] at this; exact_mod_cast this
  have qr : (r.breakdown.reusability : ℚ) ≤ 15 := by
    have := hr; simp only [reusabilityMax] at this; exact_mod_cast this
  have qb : (r.breakdown.best_practices : ℚ) ≤ 20 := by
    have := hb; simp only [bestPracticesMax] at this; exact_mod_cast this
  have zn : (0 : ℚ) ≤ (r.breakdown.naming : ℚ) := Nat.cast_nonneg _
  have zm : (0 : ℚ) ≤ (r.breakdown.modularity : ℚ) := Nat.cast_nonneg _
  have zc : (0 : ℚ) ≤ (r.breakdown.comments : ℚ) := Nat.cast_nonneg _
  have zf : (0 : ℚ) ≤ (r.breakdown.formatting : ℚ) := Nat.cast_nonneg _
  have zr : (0 : ℚ) ≤ (r.breakdown.reusability : ℚ) := Nat.cast_nonneg _
  have zb : (0 : ℚ) ≤ (r.breakdown.best_practices : ℚ) := Nat.cast_nonneg _
  refine ⟨rfl, rfl, rfl, rfl, rfl, rfl, ⟨?_, ?_⟩, ⟨?_, ?_⟩, ⟨?_, ?_⟩, ⟨?_, ?_⟩, ⟨?_, ?_⟩, ⟨?_, ?_⟩⟩
  · unfold barWidthNaming; linarith
  · unfold barWidthNaming; linarith
  · unfold barWidthModularity; linarith
  · unfold barWidthModularity; linarith
  · unfold barWidthComments; linarith
  · unfold barWidthComments; linarith
  · unfold barWidthFormatting; linarith
  · unfold barWidthFormatting; linarith
  · unfold barWidthReusability; linarith
  · unfold barWidthReusability; linarith
  · unfold barWidthBestPractices; linarith
  · unfold barWidthBestPractices; linarith

/-- Witness for C2 at the engine's empty-python-file output. -/
theorem C2_rescaling_witness : barWidthNaming resEmptyPy ≤ 100 :=
  (C2_rescaling resEmptyPy (by decide) (by decide) (by decide) (by decide) (by decide)
    (by decide)).2.2.2.2.2.2.1.2

/-- C3: the six category maxima are exactly 10, 20, 20, 15, 15 and 20,
they sum to exactly 100, and each rescaling factor of the renderer equals
100 divided by the corresponding maximum. -/
theorem C3_maxima :
    namingMax + modularityMax + commentsMax + formattingMax + reusabilityMax
        + bestPracticesMax = 100
    ∧ namingMax = 10 ∧ modularityMax = 20 ∧ commentsMax = 20 ∧ formattingMax = 15
    ∧ reusabilityMax = 15 ∧ bestPracticesMax = 20
    ∧ (∀ r : AnalysisResult,
        barWidthNaming r = (r.breakdown.naming : ℚ) * (100 / (namingMax : ℚ)))
    ∧ (∀ r : AnalysisResult,
        barWidthModularity r = (r.breakdown.modularity : ℚ) * (100 / (modularityMax : ℚ)))
    ∧ (∀ r : AnalysisResult,
        barWidthComments r = (r.breakdown.comments : ℚ) * (100 / (commentsMax : ℚ)))
    ∧ (∀ r : AnalysisResult,
        barWidthFormatting r = (r.breakdown.formatting : ℚ) * (100 / (formattingMax : ℚ)))
    ∧ (∀ r : AnalysisResult,
        barWidthReusability r = (r.breakdown.reusability : ℚ) * (100 / (reusabilityMax : ℚ)))
    ∧ (∀ r : AnalysisResult,
        barWidthBestPractices r
          = (r.breakdown.best_practices : ℚ) * (100 / (bestPracticesMax : ℚ))) := by
  refine ⟨by decide, rfl, rfl, rfl, rfl, rfl, rfl, ?_, ?_, ?_, ?_, ?_, ?_⟩
  · intro r; unfold barWidthNaming namingMax; norm_num
  · intro r; unfold barWidthModularity modularityMax; norm_num
  · intro r; unfold barWidthComments commentsMax; norm_num
  · intro r; unfold barWidthFormatting formattingMax; norm_num
  · intro r; unfold barWidthReusability reusabilityMax; norm_num
  · intro r; unfold barWidthBestPractices bestPracticesMax; norm_num

/-- C4: a filename whose extension is not py, js or jsx (a missing
extension included) makes analyze fail with UnsupportedLanguage already at
detection, so nothing is scored and no partial AnalysisResult exists. -/
theorem C4_unsupported_rejected (f c : String) (h : acceptedExt f = false) :
    detect f = Except.error AnalyzeError.unsupportedLanguage
    ∧ analyze f c = Except.error AnalyzeError.unsupportedLanguage :=
  ⟨detect_unsupported f h, analyze_unsupported f c h⟩

/-- Witness for C4 at the concrete input of the spec's rejection scenario. -/
theorem C4_unsupported_rejected_witness :
    acceptedExt ("data.txt") = false
    ∧ (detect ("data.txt") = Except.error AnalyzeError.unsupportedLanguage
      ∧ analyze ("data.txt") ("print(1)") = Except.error AnalyzeError.unsupportedLanguage) :=
  ⟨by decide, C4_unsupported_rejected ("data.txt") ("print(1)") (by decide)⟩

/-- C5: analyze is deterministic — two calls on the identical pair of
filename and content return identical AnalysisResults, with the same
overall score, the same breakdown and the same recommendation sequence. -/
theorem C5_deterministic (f c : String) (r1 r2 : AnalysisResult)
    (h1 : analyze f c = Except.ok r1) (h2 : analyze f c = Except.ok r2) :
    r1 = r2 ∧ r1.overall_score = r2.overall_score ∧ r1.breakdown = r2.breakdown
    ∧ r1.recommendations = r2.recommendations := by
  rw [h1] at h2
  have h3 : r1 = r2 := Except.ok.inj h2
  exact ⟨h3, by rw [h3], by rw [h3], by rw [h3]⟩

/-- Witness for C5 at the concrete input of an empty python file. -/
theorem C5_deterministic_witness :
    resEmptyPy = resEmptyPy ∧ resEmptyPy.overall_score = resEmptyPy.overall_score
    ∧ resEmptyPy.breakdown = resEmptyPy.breakdown
    ∧ resEmptyPy.recommendations = resEmptyPy.recommendations :=
  C5_deterministic ("a.py") ("") resEmptyPy resEmptyPy (by rfl) (by rfl)

set_option maxHeartbeats 1600000 in
/-- C6: for every filename with an accepted extension and empty content,
analyze succeeds (empty input is not an error) and the result scores 0 for
comments and the category maximum for every other category. -/
theorem C6_empty_input (f : String) (lang : Language)
    (hd : detect f = Except.ok lang) :
    analyze f ("") = Except.ok (analyzeWith lang f (""))
    ∧ (analyzeWith lang f ("")).breakdown.comments = 0
    ∧ (analyzeWith lang f ("")).breakdown.naming = namingMax
    ∧ (analyzeWith lang f ("")).breakdown.modularity = modularityMax
    ∧ (analyzeWith lang f ("")).breakdown.formatting = formattingMax
    ∧ (analyzeWith lang f ("")).breakdown.reusability = reusabilityMax
    ∧ (analyzeWith lang f ("")).breakdown.best_practices = bestPracticesMax := by
  have hres : analyzeWith lang f ("") = resEmptyPy := by cases lang <;> rfl
  refine ⟨?_, ?_, ?_, ?_, ?_, ?_, ?_⟩
  · unfold analyze; rw [hd]
  · rw [hres]; rfl
  · rw [hres]; rfl
  · rw [hres]; rfl
  · rw [hres]; rfl
  · rw [hres]; rfl
  · rw [hres]; rfl

/-- Witness for C6 at the spec's empty-file scenario input. -/
theorem C6_empty_input_witness :
    analyze ("a.py") ("") = Except.ok (analyzeWith Language.PYTHON ("a.py") (""))
    ∧ (analyzeWith Language.PYTHON ("a.py") ("")).breakdown.comments = 0
    ∧ (analyzeWith Language.PYTHON ("a.py") ("")).breakdown.naming = namingMax
    ∧ (analyzeWith Language.PYTHON ("a.py") ("")).breakdown.modularity = modularityMax
    ∧ (analyzeWith Language.PYTHON ("a.py") ("")).breakdown.formatting = formattingMax
    ∧ (analyzeWith Language.PYTHON ("a.py") ("")).breakdown.reusability = reusabilityMax
    ∧ (analyzeWith Language.PYTHON ("a.py") ("")).breakdown.best_practices = bestPracticesMax :=
  C6_empty_input ("a.py") Language.PYTHON (by rfl)

/-- C7: the upload form's accept attribute names exactly the py, js and
jsx extensions, and a filename with any other extension is rejected as a
request-level error before analysis, never as part of an AnalysisResult. -/
theorem C7_accept_set (s f c : String) (h : acceptedExt f = false) :
    (s ∈ acceptAttr ↔ (s = (".py") ∨ s = (".js") ∨ s = (".jsx")))
    ∧ analyze f c = Except.error AnalyzeError.unsupportedLanguage := by
  constructor
  · constructor
    · intro hs
      simp only [acceptAttr, List.mem_cons, List.mem_singleton] at hs
      tauto
    · intro hs
      simp only [acceptAttr, List.mem_cons, List.mem_singleton]
      tauto
  · exact analyze_unsupported f c h

/-- Witness for C7 at a concrete extension and a concrete rejected file. -/
theorem C7_accept_set_witness :
    acceptedExt ("notes.md") = false
    ∧ (((".py") ∈ acceptAttr ↔ ((".py") = (".py") ∨ (".py") = (".js") ∨ (".py") = (".jsx")))
      ∧ analyze ("notes.md") ("body") = Except.error AnalyzeError.unsupportedLanguage) :=
  ⟨by decide, C7_accept_set (".py") ("notes.md") ("body") (by decide)⟩

/-- C8: getScoreColor is total on scores and the four color ranges
partition all inputs: green exactly at 80 and above, yellow exactly on
scores at least 60 and below 80, orange exactly at least 40 and below 60,
red exactly below 40. -/
theorem C8_color_partition (score : ℚ) :
    (getScoreColor score = ("#4CAF50") ↔ 80 ≤ score)
    ∧ (getScoreColor score = ("#FFC107") ↔ (60 ≤ score ∧ score < 80))
    ∧ (getScoreColor score = ("#FF9800") ↔ (40 ≤ score ∧ score < 60))
    ∧ (getScoreColor score = ("#F44336") ↔ score < 40) := by
  unfold getScoreColor
  split_ifs with h1 h2 h3 <;>
    refine ⟨⟨fun hh => ?_, fun hh => ?_⟩, ⟨fun hh => ?_, fun hh => ?_⟩,
      ⟨fun hh => ?_, fun hh => ?_⟩, ⟨fun hh => ?_, fun hh => ?_⟩⟩ <;>
    first
      | rfl
      | exact absurd hh (by decide)
      | linarith
      | exact ⟨by linarith, by linarith⟩

/-- C9: a submit while no file is selected only sets the error message and
issues no network request, leaving the result and the loading flag
unchanged. -/
theorem C9_submit_no_file (s : FileUploadState) (h : s.file = none) :
    handleSubmit s
        = ({ s with error := some ("Please select a file first.") }, SubmitAction.noFetch)
    ∧ (handleSubmit s).1.analysisResult = s.analysisResult
    ∧ (handleSubmit s).1.isLoading = s.isLoading
    ∧ (handleSubmit s).2 = SubmitAction.noFetch := by
  unfold handleSubmit
  rw [h]
  exact ⟨rfl, rfl, rfl, rfl⟩

/-- Witness for C9 at the component's initial state. -/
theorem C9_submit_no_file_witness :
    handleSubmit emptyUploadState
        = ({ emptyUploadState with error := some ("Please select a file first.") },
            SubmitAction.noFetch)
    ∧ (handleSubmit emptyUploadState).1.analysisResult = emptyUploadState.analysisResult
    ∧ (handleSubmit emptyUploadState).1.isLoading = emptyUploadState.isLoading
    ∧ (handleSubmit emptyUploadState).2 = SubmitAction.noFetch :=
  C9_submit_no_file emptyUploadState rfl

/-- C10: every file-change event stores the newly selected file and resets
both the previous analysis result and the previous error to none, leaving
only the loading flag untouched. -/
theorem C10_file_change_resets (selected : Option UploadedFile) (s : FileUploadState) :
    (handleFileChange selected s).file = selected
    ∧ (handleFileChange selected s).analysisResult = none
    ∧ (handleFileChange selected s).error = none
    ∧ (handleFileChange selected s).isLoading = s.isLoading :=
  ⟨rfl, rfl, rfl, rfl⟩

end CCA
